import Mathlib

/-!
# Verification of the raw stream-socket I/O engine (`src/raw_sock.c`)

Shallow embedding of the copy-path read and write engines of the file:
`raw_sock_to_buf` (receive into a wrap-around buffer), `sock_raw_read`
(the read-event driving loop with the streamer heuristic) and
`sock_raw_write_loop` (the send loop).  Byte contents are not modelled,
only byte counts, offsets and flags, which is all the verified properties
speak about.  The outcomes of the `recv()` / `send()` syscalls are supplied
by an explicit list (an oracle); an exhausted oracle simply stops a loop.

Helper routines that live in other files of the repository (buffer.h,
buffers.h, connection.h, stream_interface.c) are modelled from the spec and
marked as such in their doc comments.  The tuning constants
MAX_READ_POLL_LOOPS, MAX_WRITE_POLL_LOOPS, global.tune.recv_enough and
MIN_RET_FOR_READ_LOOP are taken as parameters.
-/

namespace RawSock

/-- The byte-count bookkeeping of `struct buffer`: `size` is the storage
capacity, `p` the offset (from the start of storage) of the input/output
split, `i` the input byte count not yet forwarded (`pending_in`, `buf->i`),
`o` the pending output byte count (`pending_out`, `buf->o`).  The `o` bytes
of output precede offset `p` (wrapping backwards), the `i` bytes of input
follow it (wrapping forwards). -/
structure Buffer where
  size : Nat
  p : Nat
  i : Nat
  o : Nat
deriving Repr, DecidableEq

/-- Modelled from the spec: `buffer_len` (buffer.h, not part of this source
file) — the number of bytes held by the buffer, `pending_in + pending_out`
(spec section 3). -/
def buffer_len (b : Buffer) : Nat := b.i + b.o

/-- Modelled from the spec: `buffer_empty` (buffer.h, not part of this source
file) — the buffer holds no byte at all. -/
def buffer_empty (b : Buffer) : Bool := buffer_len b == 0

/-- Modelled from the spec: `bi_avail` (buffers.h, not part of this source
file) — the free space of the channel, `capacity - pending_in - pending_out`
(spec section 4.2, "compute free space"). -/
def bi_avail (b : Buffer) : Nat := b.size - (b.i + b.o)

/-- Modelled from the spec: `bi_full` (buffers.h, not part of this source
file) — the channel has no free space left. -/
def bi_full (b : Buffer) : Bool := bi_avail b == 0

/-- Modelled from the spec: `b_adv` (buffer.h, not part of this source file) —
`advanceOutput(n)` of spec section 4.1: promote `adv` bytes of the input
region to pending output, moving the split forward with wrap-around. -/
def b_adv (b : Buffer) (adv : Nat) : Buffer :=
  { b with p := (b.p + adv) % b.size, i := b.i - adv, o := b.o + adv }

/-- The connection state used by this file: the `struct connection` flags
CO_FL_ERROR, CO_FL_WAIT_DATA, CO_FL_WAIT_ROOM, CO_FL_SOCK_RD_SH,
CO_FL_DATA_RD_SH, CO_FL_WAIT_L4_CONN and CO_FL_HANDSHAKE, together with the
poller events FD_POLL_IN / FD_POLL_HUP recorded in `fdtab[fd].ev` for the
connection's socket. -/
structure Conn where
  error : Bool
  wait_data : Bool
  wait_room : Bool
  sock_rd_sh : Bool
  data_rd_sh : Bool
  wait_l4_conn : Bool
  handshake : Bool
  ev_pollin : Bool
  ev_pollhup : Bool
deriving Repr, DecidableEq

/-- Modelled from the spec: `conn_sock_read0` (connection.h, not part of this
source file) — records the kernel-level read shutdown on the connection
(spec section 3, `sock_read_shut`). -/
def conn_sock_read0 (c : Conn) : Conn := { c with sock_rd_sh := true }

/-- Modelled from the spec: `conn_data_read0` (connection.h, not part of this
source file) — records the data-layer read shutdown (spec section 3,
`data_read_shut`). -/
def conn_data_read0 (c : Conn) : Conn := { c with data_rd_sh := true }

/-- Modelled from the spec: `conn_data_read0_pending` (connection.h, not part
of this source file) — a kernel-level read shutdown has been seen but not yet
processed by the data layer. -/
def conn_data_read0_pending (c : Conn) : Bool := c.sock_rd_sh && !c.data_rd_sh

/-- One outcome of a `recv()` call, as the code distinguishes them:
`bytes n` is a return value of `n ≥ 0` (`0` meaning end of stream),
`eagain` a failure with errno EAGAIN, `eintr` a failure with errno EINTR,
`err` a failure with any other errno. -/
inductive RecvRes where
  | bytes (n : Nat)
  | eagain
  | eintr
  | err
deriving Repr, DecidableEq

/-- Result of (the rest of) a `raw_sock_to_buf` call: `done` is the byte
count reported, `buf`/`conn` the updated states, `rest` the unconsumed recv
outcomes, `reqs` the request size of every `recv()` issued from this point
on, `acc` the byte counts accepted by the successful ones, `ne` the number
of `recv()` calls whose outcome was not EINTR, `read0` whether the `read0`
label was reached, `sawZero` whether some `recv()` returned zero, and `wf`
whether every outcome stayed within its request (a real `recv()` never
returns more bytes than asked for). -/
structure RsOut where
  done : Nat
  buf : Buffer
  conn : Conn
  rest : List RecvRes
  reqs : List Nat
  acc : List Nat
  ne : Nat
  read0 : Bool
  sawZero : Bool
  wf : Bool
deriving Repr, DecidableEq

/-- The `while (try)` receive loop of `raw_sock_to_buf` (raw_sock.c, lines
247-277): issue `recv()` for `trySz` bytes; on a positive return account the
bytes into `buf->i` and `done`, and either stop on a short read (reaching
`read0` if FD_POLL_HUP is already reported) or retry for the remainder of
`count`; on a zero return reach `read0`; on EAGAIN set CO_FL_WAIT_DATA and
stop; on EINTR retry; on any other errno set CO_FL_ERROR and stop. -/
def rs_loop (buf : Buffer) (conn : Conn) (count trySz : Nat) :
    List RecvRes → RsOut
  | [] =>
    { done := 0, buf := buf, conn := conn, rest := [], reqs := [],
      acc := [], ne := 0, read0 := false, sawZero := false, wf := true }
  | r :: rest =>
    if trySz = 0 then
      { done := 0, buf := buf, conn := conn, rest := r :: rest, reqs := [],
        acc := [], ne := 0, read0 := false, sawZero := false, wf := true }
    else
      match r with
      | .bytes n =>
        if 0 < n then
          let buf' := { buf with i := buf.i + n }
          if n < trySz then
            if conn.ev_pollhup then
              { done := n, buf := buf', conn := conn_sock_read0 conn,
                rest := rest, reqs := [trySz], acc := [n], ne := 1,
                read0 := true, sawZero := false, wf := true }
            else
              { done := n, buf := buf', conn := conn, rest := rest,
                reqs := [trySz], acc := [n], ne := 1, read0 := false,
                sawZero := false, wf := true }
          else
            let out := rs_loop buf' conn (count - n) (count - n) rest
            { done := n + out.done, buf := out.buf, conn := out.conn,
              rest := out.rest, reqs := trySz :: out.reqs, acc := n :: out.acc,
              ne := 1 + out.ne, read0 := out.read0, sawZero := out.sawZero,
              wf := decide (n ≤ trySz) && out.wf }
        else
          { done := 0, buf := buf, conn := conn_sock_read0 conn, rest := rest,
            reqs := [trySz], acc := [], ne := 1, read0 := true,
            sawZero := true, wf := true }
      | .eagain =>
        { done := 0, buf := buf, conn := { conn with wait_data := true },
          rest := rest, reqs := [trySz], acc := [], ne := 1, read0 := false,
          sawZero := false, wf := true }
      | .eintr =>
        let out := rs_loop buf conn count trySz rest
        { done := out.done, buf := out.buf, conn := out.conn,
          rest := out.rest, reqs := trySz :: out.reqs, acc := out.acc,
          ne := out.ne, read0 := out.read0, sawZero := out.sawZero,
          wf := out.wf }
      | .err =>
        { done := 0, buf := buf, conn := { conn with error := true },
          rest := rest, reqs := [trySz], acc := [], ne := 1, read0 := false,
          sawZero := false, wf := true }

/-- `raw_sock_to_buf` (raw_sock.c, lines 221-282): receive up to `count`
bytes from the connection's socket into `buf`.  If the poller reports a
hang-up with no input data, go straight to `read0`.  Otherwise realign an
empty buffer (`buf->p = buf->data`), clip the first request to the first
contiguous free segment when the free region wraps past the end of storage,
and run the receive loop. -/
def raw_sock_to_buf (conn : Conn) (buf : Buffer) (count : Nat)
    (l : List RecvRes) : RsOut :=
  if conn.ev_pollhup && !conn.ev_pollin then
    { done := 0, buf := buf, conn := conn_sock_read0 conn, rest := l,
      reqs := [], acc := [], ne := 0, read0 := true, sawZero := false,
      wf := true }
  else if buffer_empty buf then
    rs_loop { buf with p := 0 } conn count count l
  else if buf.o < buf.p && buf.p + buf.i < buf.size then
    rs_loop buf conn count
      (if count > buf.size - (buf.p + buf.i)
        then buf.size - (buf.p + buf.i) else count) l
  else
    rs_loop buf conn count count l

/-- The sentinel value of `to_forward` meaning "forward without bound"
(`BUF_INFINITE_FORWARD`, the all-ones value of a 32-bit unsigned int). -/
def BUF_INFINITE_FORWARD : Nat := 2 ^ 32 - 1

/-- The channel state (`struct channel`) used by this file: its buffer, the
automatic-forward count `to_forward` (`BUF_INFINITE_FORWARD` meaning
unbounded), the lifetime counter `total`, the streamer-heuristic counters
`xfer_small` / `xfer_large`, and the BF_* flags this file reads or writes.
`read_part` / `write_part` stand for BF_READ_PARTIAL / BF_WRITE_PARTIAL. -/
structure Channel where
  buf : Buffer
  to_forward : Nat
  total : Nat
  xfer_small : Nat
  xfer_large : Nat
  full : Bool
  read_part : Bool
  write_part : Bool
  out_empty : Bool
  read_null : Bool
  shutr : Bool
  shutw : Bool
  shutw_now : Bool
  hijack : Bool
  auto_close : Bool
  never_wait : Bool
  expect_more : Bool
  send_dontwait : Bool
  read_dontwait : Bool
  streamer : Bool
  streamer_fast : Bool
deriving Repr, DecidableEq

/-- Modelled from the spec: `buffer_shutw_now` (buffers.h, not part of this
source file) — request a write shutdown on the channel; the auto-close
policy of spec section 4.2 step 3. -/
def buffer_shutw_now (b : Channel) : Channel := { b with shutw_now := true }

/-- Modelled from the spec: `stream_sock_read0` (stream_interface.c, not part
of this source file) — the propagation of a read shutdown to the stream
interface, "mark shut, propagate to the peer-facing collaborator" of spec
section 4.2 step 3.  It marks the channel as shut for reading (BF_SHUTR),
which keeps the read path from being re-entered (spec section 3). -/
def stream_sock_read0 (b : Channel) : Channel := { b with shutr := true }

/-- The direct-forwarding step of `sock_raw_read` (raw_sock.c, lines
352-361): when forwarding is active and the channel is not shutting its
write side down, promote `min ret to_forward` input bytes (all `ret` bytes
under the unbounded sentinel) to pending output, decrementing a finite
`to_forward` by the amount promoted. -/
def forward_update (b : Channel) (ret : Nat) : Channel :=
  if b.to_forward != 0 && !(b.shutw || b.shutw_now) then
    let fwd : Nat :=
      if b.to_forward != BUF_INFINITE_FORWARD then
        (if ret > b.to_forward then b.to_forward else ret)
      else ret
    let b' :=
      if b.to_forward != BUF_INFINITE_FORWARD then
        { b with to_forward := b.to_forward - fwd }
      else b
    { b' with buf := b_adv b'.buf fwd }
  else b

/-- The streamer classification of `sock_raw_read` (raw_sock.c, lines
375-402), applied when the buffer has just become full: a one-shot full fill
(when not already a fast streamer) bumps `xfer_large`, promoting to
BF_STREAMER and BF_STREAMER_FAST at three; a streamer pass reading at most
half the buffer bumps `xfer_small`, demoting from BF_STREAMER_FAST at two;
any other pass resets both counters. -/
def streamer_update (b : Channel) (cur_read : Nat) : Channel :=
  if !b.streamer_fast && cur_read == buffer_len b.buf then
    let b' := { b with xfer_small := 0, xfer_large := b.xfer_large + 1 }
    if 3 ≤ b'.xfer_large then
      { b' with streamer := true, streamer_fast := true }
    else b'
  else if (b.streamer || b.streamer_fast) && cur_read ≤ b.buf.size / 2 then
    let b' := { b with xfer_large := 0, xfer_small := b.xfer_small + 1 }
    if 2 ≤ b'.xfer_small then { b' with streamer_fast := false } else b'
  else
    { b with xfer_small := 0, xfer_large := 0 }

/-- The secondary streamer demotion of `sock_raw_read` (raw_sock.c, lines
416-429), applied when a pass read less than requested: a streamer that read
at most half the buffer bumps `xfer_small`, clearing both streamer flags at
three. -/
def streamer_demote (b : Channel) (cur_read : Nat) : Channel :=
  if (b.streamer || b.streamer_fast) && cur_read ≤ b.buf.size / 2 then
    let b' := { b with xfer_large := 0, xfer_small := b.xfer_small + 1 }
    if 3 ≤ b'.xfer_small then
      { b' with streamer := false, streamer_fast := false }
    else b'
  else b

/-- State carried out of the `sock_raw_read` read loop: the connection, the
channel, the stream interface's SI_FL_WAIT_ROOM flag, the accumulated
`cur_read`, the unconsumed recv outcomes, the number of `recv()` calls
performed, whether some `recv()` returned zero, and oracle wellformedness. -/
structure SrrLoopOut where
  conn : Conn
  b : Channel
  si_wait_room : Bool
  cur_read : Nat
  rest : List RecvRes
  recvCalls : Nat
  sawZero : Bool
  wf : Bool
deriving Repr, DecidableEq

/-- Outcome of one iteration of the `sock_raw_read` loop body: the loop
either stops with a final state (`halt`) or proceeds to the next iteration
with the carried state (`again`). -/
inductive SrrStep where
  | halt (o : SrrLoopOut)
  | again (conn : Conn) (b : Channel) (cur : Nat) (rest : List RecvRes)
      (calls : Nat) (sawZero wf : Bool)
deriving Repr, DecidableEq

/-- The part of one `sock_raw_read` loop iteration after the receive call
(raw_sock.c, lines 346-443), taking the receive result `r`; `re` is the
tuning constant `global.tune.recv_enough` and `fuel_last` tells whether the
decremented read-poll budget reached zero (the `--read_poll <= 0` half of
the break test).  Stop when the receive reported nothing; otherwise forward,
clear the transitional L4 flag, account the bytes, and either stop — with
the streamer classification when the buffer became full, on
BF_READ_DONTWAIT or an exhausted budget, or by the demotion and early-stop
heuristics on a short read — or continue the loop. -/
def srr_mid (re : Nat) (fuel_last : Bool) (b : Channel) (si_wr : Bool)
    (cur_read maxb : Nat) (r : RsOut) : SrrStep :=
  let conn₁ := r.conn
  let b₁ := { b with buf := r.buf }
  let calls := r.reqs.length
  if r.done = 0 then
    .halt { conn := conn₁, b := b₁, si_wait_room := si_wr,
            cur_read := cur_read, rest := r.rest, recvCalls := calls,
            sawZero := r.sawZero, wf := r.wf }
  else
    let ret := r.done
    let cur' := cur_read + ret
    let b₂ := forward_update b₁ ret
    let conn₂ := if conn₁.wait_l4_conn then
        { conn₁ with wait_l4_conn := false }
      else conn₁
    let b₃ := { b₂ with read_part := true, total := b₂.total + ret }
    if bi_full b₃.buf then
      let b₄ := streamer_update b₃ cur'
      .halt { conn := conn₂, b := { b₄ with full := true },
              si_wait_room := true, cur_read := cur', rest := r.rest,
              recvCalls := calls, sawZero := r.sawZero, wf := r.wf }
    else if b₃.read_dontwait || fuel_last then
      .halt { conn := conn₂, b := b₃, si_wait_room := si_wr,
              cur_read := cur', rest := r.rest, recvCalls := calls,
              sawZero := r.sawZero, wf := r.wf }
    else if ret < maxb then
      let b₄ := streamer_demote b₃ cur'
      if b₄.streamer then
        .halt { conn := conn₂, b := b₄, si_wait_room := si_wr,
                cur_read := cur', rest := r.rest, recvCalls := calls,
                sawZero := r.sawZero, wf := r.wf }
      else if re ≤ ret then
        .halt { conn := conn₂, b := b₄, si_wait_room := si_wr,
                cur_read := cur', rest := r.rest, recvCalls := calls,
                sawZero := r.sawZero, wf := r.wf }
      else
        .again conn₂ b₄ cur' r.rest calls r.sawZero r.wf
    else
      .again conn₂ b₃ cur' r.rest calls r.sawZero r.wf

/-- The entry checks of one iteration of the `sock_raw_read` loop
(raw_sock.c, lines 337-348): stop on a recorded error, shutdown, wait or
handshake flag; mark the channel full and the interface waiting for room
when no space is left; otherwise receive via `raw_sock_to_buf` and hand the
result to `srr_mid`. -/
def srr_body (re : Nat) (fuel_last : Bool) (conn : Conn) (b : Channel)
    (si_wr : Bool) (cur_read : Nat) (l : List RecvRes) : SrrStep :=
  if conn.error || conn.sock_rd_sh || conn.data_rd_sh || conn.wait_data ||
      conn.wait_room || conn.handshake then
    .halt { conn := conn, b := b, si_wait_room := si_wr,
            cur_read := cur_read, rest := l, recvCalls := 0,
            sawZero := false, wf := true }
  else
    let maxb := bi_avail b.buf
    if maxb = 0 then
      .halt { conn := conn, b := { b with full := true },
              si_wait_room := true, cur_read := cur_read, rest := l,
              recvCalls := 0, sawZero := false, wf := true }
    else
      srr_mid re fuel_last b si_wr cur_read maxb
        (raw_sock_to_buf conn b.buf maxb l)

/-- The last permitted iteration of the `sock_raw_read` loop: the body runs
with `fuel_last` set, so it cannot ask to continue; the `again` fallback is
unreachable and merely replays the carried state. -/
def srr_last (re : Nat) (conn : Conn) (b : Channel) (si_wr : Bool)
    (cur_read : Nat) (l : List RecvRes) : SrrLoopOut :=
  match srr_body re true conn b si_wr cur_read l with
  | .halt o => o
  | .again conn' b' cur' rest' calls sz wfb =>
    { conn := conn', b := b', si_wait_room := si_wr, cur_read := cur',
      rest := rest', recvCalls := calls, sawZero := sz, wf := wfb }

/-- The `while` loop of `sock_raw_read` (raw_sock.c, lines 337-444), with
`rp` the remaining read-poll budget (`read_poll`): iterate `srr_body`,
combining the carried counters, until the body halts or the budget runs out
(`srr_last`, where the body cannot ask to continue). -/
def srr_loop (re : Nat) : Nat → Conn → Channel → Bool → Nat →
    List RecvRes → SrrLoopOut
  | 0, conn, b, si_wr, cur_read, l => srr_last re conn b si_wr cur_read l
  | 1, conn, b, si_wr, cur_read, l => srr_last re conn b si_wr cur_read l
  | rp' + 2, conn, b, si_wr, cur_read, l =>
    match srr_body re false conn b si_wr cur_read l with
    | .halt o => o
    | .again conn' b' cur' rest' calls sz wfb =>
      let out := srr_loop re (rp' + 1) conn' b' si_wr cur' rest'
      { conn := out.conn, b := out.b, si_wait_room := out.si_wait_room,
        cur_read := out.cur_read, rest := out.rest,
        recvCalls := calls + out.recvCalls, sawZero := sz || out.sawZero,
        wf := wfb && out.wf }

/-- How the read path re-arms the poller after the loop: not at all, a
"poll only" request (`__conn_data_poll_recv`) or a full read-interest
request (`__conn_data_want_recv`). -/
inductive Rearm where
  | idle
  | pollRecv
  | wantRecv
deriving Repr, DecidableEq

/-- Result of a `sock_raw_read` invocation: final connection, channel and
SI_FL_WAIT_ROOM flag, the number of `recv()` calls performed, the number of
times the `out_shutdown_r` tail ran, whether some `recv()` returned zero,
oracle wellformedness, the poller re-arm request, and whether
`conn_data_stop_both` was invoked (the fatal-error path). -/
structure SrrOut where
  conn : Conn
  b : Channel
  si_wait_room : Bool
  recvCalls : Nat
  shutdownRuns : Nat
  sawZero : Bool
  wf : Bool
  rearm : Rearm
  stoppedBoth : Bool
deriving Repr, DecidableEq

/-- The `out_shutdown_r` tail of `sock_raw_read` (raw_sock.c, lines
466-473): set BF_READ_NULL, apply the auto-close policy
(`buffer_shutw_now`), and run the read-shutdown collaborators
`stream_sock_read0` and `conn_data_read0`. -/
def out_shutdown_r (conn : Conn) (b : Channel) (si_wr : Bool) (calls : Nat)
    (sawZero wf : Bool) (rearm : Rearm) : SrrOut :=
  let b₁ := { b with read_null := true }
  let b₂ := if b₁.auto_close then buffer_shutw_now b₁ else b₁
  let b₃ := stream_sock_read0 b₂
  { conn := conn_data_read0 conn, b := b₃, si_wait_room := si_wr,
    recvCalls := calls, shutdownRuns := 1, sawZero := sawZero, wf := wf,
    rearm := rearm, stoppedBoth := false }

/-- `sock_raw_read` (raw_sock.c, lines 288-479): the read-event entry point.
It aborts on a recorded connection error (disabling I/O both ways), runs the
shutdown tail if a read shutdown is pending, returns if the channel already
observed an asynchronous shutdown, and otherwise clears the wait flags, runs
the bounded receive loop, then propagates a fatal error, re-arms the poller
when waiting for data, and runs the shutdown tail if end of stream was seen.
`read_poll` is MAX_READ_POLL_LOOPS, `re` is global.tune.recv_enough and
`min_ret` is MIN_RET_FOR_READ_LOOP, tuning constants defined outside this
file. -/
def sock_raw_read (read_poll re min_ret : Nat) (conn : Conn) (b : Channel)
    (si_wr : Bool) (l : List RecvRes) : SrrOut :=
  if conn.error then
    { conn := conn, b := b, si_wait_room := si_wr, recvCalls := 0,
      shutdownRuns := 0, sawZero := false, wf := true, rearm := .idle,
      stoppedBoth := true }
  else if conn_data_read0_pending conn then
    out_shutdown_r conn b si_wr 0 false true .idle
  else if b.shutr then
    { conn := conn, b := b, si_wait_room := si_wr, recvCalls := 0,
      shutdownRuns := 0, sawZero := false, wf := true, rearm := .idle,
      stoppedBoth := false }
  else
    let conn₀ := { conn with wait_data := false, wait_room := false }
    let out := srr_loop re read_poll conn₀ b si_wr 0 l
    if out.conn.error then
      { conn := out.conn, b := out.b, si_wait_room := out.si_wait_room,
        recvCalls := out.recvCalls, shutdownRuns := 0,
        sawZero := out.sawZero, wf := out.wf, rearm := .idle,
        stoppedBoth := true }
    else
      let rearm :=
        if out.conn.wait_data then
          (if out.cur_read < min_ret then Rearm.pollRecv else Rearm.wantRecv)
        else Rearm.idle
      if conn_data_read0_pending out.conn then
        out_shutdown_r out.conn out.b out.si_wait_room out.recvCalls
          out.sawZero out.wf rearm
      else
        { conn := out.conn, b := out.b, si_wait_room := out.si_wait_room,
          recvCalls := out.recvCalls, shutdownRuns := 0,
          sawZero := out.sawZero, wf := out.wf, rearm := rearm,
          stoppedBoth := false }

/-- One outcome of a `send()` call: `bytes n` is a return value of `n ≥ 0`
(`0` being handled like EAGAIN by the code), `eagain` a failure with errno
EAGAIN, `err` a failure with any other errno. -/
inductive SendRes where
  | bytes (n : Nat)
  | eagain
  | err
deriving Repr, DecidableEq

/-- Result of (the rest of) a `sock_raw_write_loop` call: updated channel and
connection, whether the call returned -1 (`fatal`), the request size and
MSG_MORE hint of every `send()` issued from this point on, whether
`conn_data_poll_send` was invoked, the unconsumed send outcomes, and oracle
wellformedness (a real `send()` never accepts more than it was given). -/
structure SwOut where
  b : Channel
  conn : Conn
  fatal : Bool
  sends : List (Nat × Bool)
  pollSend : Bool
  rest : List SendRes
  wf : Bool
deriving Repr, DecidableEq

/-- The MSG_MORE decision of `sock_raw_write_loop` (raw_sock.c, lines
555-568) for a send of `maxb` bytes: hint "more data coming" when forwarding
is finite and active or BF_EXPECT_MORE is set (unless BF_NEVER_WAIT), when
this final span merges with an imminent write shutdown, or when the span is
smaller than the pending output; BF_SEND_DONTWAIT suppresses the hint. -/
def send_more (b : Channel) (maxb : Nat) : Bool :=
  let more :=
    (!b.never_wait &&
      ((b.to_forward != 0 && b.to_forward != BUF_INFINITE_FORWARD) ||
        b.expect_more)) ||
    ((!b.shutw && b.shutw_now && !b.hijack) && maxb == b.buf.o) ||
    (maxb != b.buf.o)
  if b.send_dontwait then false else more

/-- Outcome of one iteration of the `sock_raw_write_loop` loop body: the
loop either stops with a final state (`halt`) or proceeds to the next
iteration (`again`), carrying the `send()` it issued. -/
inductive SwStep where
  | halt (o : SwOut)
  | again (conn : Conn) (b : Channel) (rest : List SendRes)
      (snd : Nat × Bool) (wfn : Bool)
deriving Repr, DecidableEq

/-- The body of one iteration of the send loop of `sock_raw_write_loop`
(raw_sock.c, lines 537-622).  `fuel_last` tells whether the decremented
write-poll budget reached zero (the `--write_poll <= 0` test).  Compute the
contiguous sendable span from the output head (clipped at the storage end
when the pending output wraps), issue one `send()`; on success clear the
transitional L4 flag, account the bytes, realign an emptied buffer, clear
BF_FULL when room appeared, stop when everything was sent (clearing the
one-shot flags and marking BF_OUT_EMPTY), on a partial accept, or when the
budget ran out; on would-block request write polling; on any other error
fail. -/
def sw_body (fuel_last : Bool) (conn : Conn) (b : Channel)
    (l : List SendRes) : SwStep :=
  let maxb := if b.buf.o > b.buf.p then b.buf.o - b.buf.p else b.buf.o
  match l with
  | [] =>
    .halt { b := b, conn := conn, fatal := false, sends := [],
            pollSend := false, rest := [], wf := true }
  | r :: rest =>
    let snd := (maxb, send_more b maxb)
    match r with
    | .bytes n =>
      if 0 < n then
        let conn₁ := if conn.wait_l4_conn then
            { conn with wait_l4_conn := false }
          else conn
        let b₁ := { b with write_part := true,
                           buf := { b.buf with o := b.buf.o - n } }
        let b₂ := if buffer_len b₁.buf = 0 then
            { b₁ with buf := { b₁.buf with p := 0 } }
          else b₁
        let b₃ := if !bi_full b₂.buf then { b₂ with full := false } else b₂
        let wfn := decide (n ≤ maxb)
        if b₃.buf.o = 0 then
          let b₄ := { b₃ with expect_more := false, send_dontwait := false,
                              out_empty := true }
          .halt { b := b₄, conn := conn₁, fatal := false, sends := [snd],
                  pollSend := false, rest := rest, wf := wfn }
        else if n < maxb then
          .halt { b := b₃, conn := conn₁, fatal := false, sends := [snd],
                  pollSend := false, rest := rest, wf := wfn }
        else if fuel_last then
          .halt { b := b₃, conn := conn₁, fatal := false, sends := [snd],
                  pollSend := false, rest := rest, wf := wfn }
        else
          .again conn₁ b₃ rest snd wfn
      else
        .halt { b := b, conn := conn, fatal := false, sends := [snd],
                pollSend := true, rest := rest, wf := true }
    | .eagain =>
      .halt { b := b, conn := conn, fatal := false, sends := [snd],
              pollSend := true, rest := rest, wf := true }
    | .err =>
      .halt { b := b, conn := conn, fatal := true, sends := [snd],
              pollSend := false, rest := rest, wf := true }

/-- The last permitted iteration of the send loop: the body runs with
`fuel_last` set and cannot ask to continue; the `again` fallback is
unreachable and merely replays the `send()` it carried. -/
def sw_last (conn : Conn) (b : Channel) (l : List SendRes) : SwOut :=
  match sw_body true conn b l with
  | .halt o => o
  | .again conn₁ b₃ rest snd wfn =>
    { b := b₃, conn := conn₁, fatal := false, sends := [snd],
      pollSend := false, rest := rest, wf := wfn }

/-- The send loop of `sock_raw_write_loop` (raw_sock.c, lines 537-622), with
`wp` the remaining write-poll budget (`write_poll`): iterate `sw_body`,
collecting the issued `send()` calls, until the body halts or the budget
runs out (`sw_last`). -/
def sw_loop : Conn → Nat → Channel → List SendRes → SwOut
  | conn, 0, b, l => sw_last conn b l
  | conn, 1, b, l => sw_last conn b l
  | conn, wp' + 2, b, l =>
    match sw_body false conn b l with
    | .halt o => o
    | .again conn₁ b₃ rest snd wfn =>
      let out := sw_loop conn₁ (wp' + 1) b₃ rest
      { b := out.b, conn := out.conn, fatal := out.fatal,
        sends := snd :: out.sends, pollSend := out.pollSend,
        rest := out.rest, wf := wfn && out.wf }

/-- `sock_raw_write_loop` (raw_sock.c, lines 486-624): the send path.  When
no output byte is pending, mark BF_OUT_EMPTY and succeed without any
syscall; otherwise run the bounded send loop.  `write_poll` is
MAX_WRITE_POLL_LOOPS, a tuning constant defined outside this file.  The
kernel zero-copy (splice) path is compiled out in this source (`#if 0`), so
`b->pipe` is always NULL and is not modelled. -/
def sock_raw_write_loop (write_poll : Nat) (conn : Conn) (b : Channel)
    (l : List SendRes) : SwOut :=
  if b.buf.o = 0 then
    { b := { b with out_empty := true }, conn := conn, fatal := false,
      sends := [], pollSend := false, rest := l, wf := true }
  else
    sw_loop conn write_poll b l

/-- Modelled from the spec: `si_conn_send_cb` (stream_interface.c, not part
of this source file) — the write-event entry point that drives the send
path.  Per spec section 3, once `error` is set no further write attempt is
made, and per section 5 no I/O runs while a handshake is in progress;
otherwise the send loop runs. -/
def si_conn_send_cb (write_poll : Nat) (conn : Conn) (b : Channel)
    (l : List SendRes) : SwOut :=
  if conn.error then
    { b := b, conn := conn, fatal := true, sends := [], pollSend := false,
      rest := l, wf := true }
  else if conn.handshake then
    { b := b, conn := conn, fatal := false, sends := [], pollSend := false,
      rest := l, wf := true }
  else
    sock_raw_write_loop write_poll conn b l

/-- A pristine connection with the socket readable and no flag set, used by
the concrete scenarios. -/
def conn0 : Conn :=
  { error := false, wait_data := false, wait_room := false,
    sock_rd_sh := false, data_rd_sh := false, wait_l4_conn := false,
    handshake := false, ev_pollin := true, ev_pollhup := false }

/-- `conn0` with the poller's hang-up event also recorded. -/
def connH : Conn := { conn0 with ev_pollhup := true }

/-- A buffer whose free region wraps past the end of storage: 8 bytes of
storage, 2 pending output bytes in offsets 2..3, the split at offset 4, no
input byte; the free region is offsets 4..7 then 0..1. -/
def bufW : Buffer := { size := 8, p := 4, i := 0, o := 2 }

/-- A pristine empty channel of capacity 4096 with every flag clear, used by
the concrete scenarios. -/
def chanStart : Channel :=
  { buf := { size := 4096, p := 0, i := 0, o := 0 }, to_forward := 0,
    total := 0, xfer_small := 0, xfer_large := 0, full := false,
    read_part := false, write_part := false, out_empty := false,
    read_null := false, shutr := false, shutw := false, shutw_now := false,
    hijack := false, auto_close := false, never_wait := false,
    expect_more := false, send_dontwait := false, read_dontwait := false,
    streamer := false, streamer_fast := false }

/-- `chanStart` with 2000 bytes of pending output ending at offset 2000. -/
def chanW2000 : Channel :=
  { chanStart with buf := { size := 4096, p := 2000, i := 0, o := 2000 } }

/-- A completely full channel of capacity 4096 with `xfer_large = 2`, about
to be promoted by one more one-shot full fill. -/
def chanFull2 : Channel :=
  { chanStart with
      buf := { size := 4096, p := 0, i := 4096, o := 0 },
      xfer_large := 2 }

/-- Scenario scaffolding, not part of the source: the external stream-layer
consumer (spec section 2) drains the whole channel between two read events,
leaving it empty and clearing BF_FULL; the flags and counters owned by the
read path are untouched. -/
def consume_all (o : SrrOut) : Channel :=
  { o.b with buf := { size := 4096, p := 0, i := 0, o := 0 }, full := false }

/-- Scenario scaffolding, not part of the source: the external consumer
drains only part of the channel, leaving `n` unread input bytes and clearing
BF_FULL. -/
def consume_leaving (n : Nat) (o : SrrOut) : Channel :=
  { o.b with buf := { size := 4096, p := 0, i := n, o := 0 }, full := false }

/-- Scenario scaffolding: first streamer pass — a single 4096-byte receive
into the empty channel. -/
def c4_p1 : SrrOut := sock_raw_read 60 1448 3 conn0 chanStart false
  [.bytes 4096]

/-- Scenario scaffolding: second one-shot full fill after a complete
drain. -/
def c4_p2 : SrrOut := sock_raw_read 60 1448 3 conn0 (consume_all c4_p1)
  false [.bytes 4096]

/-- Scenario scaffolding: third one-shot full fill after a complete
drain. -/
def c4_p3 : SrrOut := sock_raw_read 60 1448 3 conn0 (consume_all c4_p2)
  false [.bytes 4096]

/-- Scenario scaffolding: fourth pass — the consumer left 2048 bytes, the
pass reads 2048 more (half the buffer) and ends full. -/
def c4_p4 : SrrOut := sock_raw_read 60 1448 3 conn0
  (consume_leaving 2048 c4_p3) false [.bytes 2048]

/-- Scenario scaffolding: fifth pass — again a half-buffer read ending
full. -/
def c4_p5 : SrrOut := sock_raw_read 60 1448 3 conn0
  (consume_leaving 2048 c4_p4) false [.bytes 2048]

/-- Scenario scaffolding: sixth pass — 1000 bytes left by the consumer, the
pass reads 3096 (more than half, not a one-shot full fill) and ends full:
matches neither classification case. -/
def c4_p6 : SrrOut := sock_raw_read 60 1448 3 conn0
  (consume_leaving 1000 c4_p5) false [.bytes 3096]

/-- Invariant of one read-loop iteration used to prove the end-of-stream
property: a halted iteration that consumed a zero-byte receive has recorded
the kernel read shutdown and touched neither the data-shutdown nor the error
flag; a continuing iteration keeps the data-shutdown flag clear and, had it
consumed a zero-byte receive, would carry the recorded shutdown onwards. -/
def ZeroShutInv : SrrStep → Prop
  | .halt o => o.sawZero = true → o.conn.sock_rd_sh = true ∧
      o.conn.data_rd_sh = false ∧ o.conn.error = false
  | .again conn' _ _ _ _ sz _ => conn'.data_rd_sh = false ∧
      (sz = true → conn'.sock_rd_sh = true ∧ conn'.error = false)

/-! ## Basic facts about the receive loop -/

/-- With a zero request the receive loop stops at once, performing no call. -/
theorem rs_loop_zero (buf : Buffer) (conn : Conn) (count : Nat)
    (l : List RecvRes) :
    rs_loop buf conn count 0 l =
      { done := 0, buf := buf, conn := conn, rest := l, reqs := [],
        acc := [], ne := 0, read0 := false, sawZero := false, wf := true } := by
  cases l <;> simp [rs_loop]

/-- The receive loop never touches `o`, `p` or `size`, reports exactly the
bytes it accepted (`done` is the sum of `acc`) and advances `i` by exactly
`done`. -/
theorem rs_loop_buf (l : List RecvRes) : ∀ (buf : Buffer) (conn : Conn)
    (count trySz : Nat),
    (rs_loop buf conn count trySz l).buf.o = buf.o ∧
    (rs_loop buf conn count trySz l).buf.size = buf.size ∧
    (rs_loop buf conn count trySz l).buf.p = buf.p ∧
    (rs_loop buf conn count trySz l).done =
      (rs_loop buf conn count trySz l).acc.sum ∧
    (rs_loop buf conn count trySz l).buf.i =
      buf.i + (rs_loop buf conn count trySz l).done := by
  induction l with
  | nil => intro buf conn count trySz; simp [rs_loop]
  | cons r rest ih =>
    intro buf conn count trySz
    by_cases h0 : trySz = 0
    · simp [rs_loop, h0]
    · cases r with
      | bytes n =>
        by_cases hn : 0 < n
        · by_cases hlt : n < trySz
          · by_cases hup : conn.ev_pollhup = true
            · simp [rs_loop, h0, hn, hlt, hup, conn_sock_read0]
            · simp [rs_loop, h0, hn, hlt, hup]
          · obtain ⟨ho, hs, hp, hd, hi⟩ :=
              ih { buf with i := buf.i + n } conn (count - n) (count - n)
            simp only [rs_loop, if_neg h0, if_pos hn, if_neg hlt]
            refine ⟨ho, hs, hp, ?_, ?_⟩
            · simp [hd]
            · simp at hi; omega
        · simp [rs_loop, h0, hn, conn_sock_read0]
      | eagain => simp [rs_loop, h0]
      | eintr =>
        obtain ⟨ho, hs, hp, hd, hi⟩ := ih buf conn count trySz
        simp only [rs_loop, if_neg h0]
        exact ⟨ho, hs, hp, hd, hi⟩
      | err => simp [rs_loop, h0]

/-- The receive loop never touches the data-shutdown, handshake, wait-room,
L4 and poller-event connection fields; and when it consumed a zero-byte
receive it has recorded the kernel read shutdown and has not touched the
error flag. -/
theorem rs_loop_conn (l : List RecvRes) : ∀ (buf : Buffer) (conn : Conn)
    (count trySz : Nat),
    (rs_loop buf conn count trySz l).conn.data_rd_sh = conn.data_rd_sh ∧
    (rs_loop buf conn count trySz l).conn.handshake = conn.handshake ∧
    (rs_loop buf conn count trySz l).conn.wait_room = conn.wait_room ∧
    (rs_loop buf conn count trySz l).conn.wait_l4_conn = conn.wait_l4_conn ∧
    (rs_loop buf conn count trySz l).conn.ev_pollin = conn.ev_pollin ∧
    (rs_loop buf conn count trySz l).conn.ev_pollhup = conn.ev_pollhup ∧
    ((rs_loop buf conn count trySz l).sawZero = true →
      (rs_loop buf conn count trySz l).conn.sock_rd_sh = true ∧
      (rs_loop buf conn count trySz l).conn.error = conn.error) := by
  induction l with
  | nil => intro buf conn count trySz; simp [rs_loop]
  | cons r rest ih =>
    intro buf conn count trySz
    by_cases h0 : trySz = 0
    · simp [rs_loop, h0]
    · cases r with
      | bytes n =>
        by_cases hn : 0 < n
        · by_cases hlt : n < trySz
          · by_cases hup : conn.ev_pollhup = true
            · simp [rs_loop, h0, hn, hlt, hup, conn_sock_read0]
            · simp [rs_loop, h0, hn, hlt, hup]
          · obtain ⟨h1, h2, h3, h4, h5, h6, h7⟩ :=
              ih { buf with i := buf.i + n } conn (count - n) (count - n)
            simp only [rs_loop, if_neg h0, if_pos hn, if_neg hlt]
            exact ⟨h1, h2, h3, h4, h5, h6, h7⟩
        · simp [rs_loop, h0, hn, conn_sock_read0]
      | eagain => simp [rs_loop, h0]
      | eintr =>
        obtain ⟨h1, h2, h3, h4, h5, h6, h7⟩ := ih buf conn count trySz
        simp only [rs_loop, if_neg h0]
        exact ⟨h1, h2, h3, h4, h5, h6, h7⟩
      | err => simp [rs_loop, h0]

/-- On a wellformed oracle the receive loop reports at most `count` bytes. -/
theorem rs_loop_le (l : List RecvRes) : ∀ (buf : Buffer) (conn : Conn)
    (count trySz : Nat), trySz ≤ count →
    (rs_loop buf conn count trySz l).wf = true →
    (rs_loop buf conn count trySz l).done ≤ count := by
  induction l with
  | nil => intro buf conn count trySz _ _; simp [rs_loop]
  | cons r rest ih =>
    intro buf conn count trySz hts hwf
    by_cases h0 : trySz = 0
    · simp [rs_loop, h0]
    · cases r with
      | bytes n =>
        by_cases hn : 0 < n
        · by_cases hlt : n < trySz
          · by_cases hup : conn.ev_pollhup = true
            · simp [rs_loop, h0, hn, hlt, hup]; omega
            · simp [rs_loop, h0, hn, hlt, hup]; omega
          · simp only [rs_loop, if_neg h0, if_pos hn, if_neg hlt] at hwf ⊢
            simp only [Bool.and_eq_true, decide_eq_true_eq] at hwf
            have := ih { buf with i := buf.i + n } conn (count - n)
              (count - n) le_rfl hwf.2
            omega
        · simp [rs_loop, h0, hn]
      | eagain => simp [rs_loop, h0]
      | eintr =>
        simp only [rs_loop, if_neg h0] at hwf ⊢
        exact ih buf conn count trySz hts hwf
      | err => simp [rs_loop, h0]

/-- The receive loop performs at most two `recv()` calls besides
EINTR-interrupted attempts; at most one when the request covers the whole
remaining `count`. -/
theorem rs_loop_ne (l : List RecvRes) : ∀ (buf : Buffer) (conn : Conn)
    (count trySz : Nat),
    (rs_loop buf conn count trySz l).ne ≤ 2 ∧
    (trySz = count → (rs_loop buf conn count trySz l).ne ≤ 1) := by
  induction l with
  | nil => intro buf conn count trySz; simp [rs_loop]
  | cons r rest ih =>
    intro buf conn count trySz
    by_cases h0 : trySz = 0
    · simp [rs_loop, h0]
    · cases r with
      | bytes n =>
        by_cases hn : 0 < n
        · by_cases hlt : n < trySz
          · by_cases hup : conn.ev_pollhup = true
            · simp [rs_loop, h0, hn, hlt, hup]
            · simp [rs_loop, h0, hn, hlt, hup]
          · simp only [rs_loop, if_neg h0, if_pos hn, if_neg hlt]
            constructor
            · have h2 := (ih { buf with i := buf.i + n } conn (count - n)
                (count - n)).2 rfl
              omega
            · intro heq
              have hte : count - n = 0 := by omega
              rw [hte, rs_loop_zero]
              simp
        · simp [rs_loop, h0, hn]
      | eagain => simp [rs_loop, h0]
      | eintr =>
        obtain ⟨ha, hb⟩ := ih buf conn count trySz
        simp only [rs_loop, if_neg h0]
        exact ⟨ha, hb⟩
      | err => simp [rs_loop, h0]

/-- Every `recv()` request of the loop, in particular the first one, asks for
exactly the current `trySz` bytes. -/
theorem rs_loop_reqs_head (l : List RecvRes) (buf : Buffer) (conn : Conn)
    (count trySz : Nat) :
    (rs_loop buf conn count trySz l).reqs.head? = some trySz ∨
    (rs_loop buf conn count trySz l).reqs = [] := by
  cases l with
  | nil => simp [rs_loop]
  | cons r rest =>
    by_cases h0 : trySz = 0
    · simp [rs_loop, h0]
    · cases r with
      | bytes n =>
        by_cases hn : 0 < n
        · by_cases hlt : n < trySz
          · by_cases hup : conn.ev_pollhup = true
            · simp [rs_loop, h0, hn, hlt, hup]
            · simp [rs_loop, h0, hn, hlt, hup]
          · simp [rs_loop, h0, hn, hlt]
        · simp [rs_loop, h0, hn]
      | eagain => simp [rs_loop, h0]
      | eintr => simp [rs_loop, h0]
      | err => simp [rs_loop, h0]

/-! ## Receive-path claims -/

/-- C1: `raw_sock_to_buf` returns exactly the sum of the byte counts accepted
by its successful `recv()` calls, advances `buf->i` (pending_in) by exactly
that amount while leaving pending_out untouched, and — when called as the
read loop calls it, for at most the channel's free space, on a wellformed
oracle — never pushes pending_in beyond capacity minus pending_out. -/
theorem raw_sock_to_buf_accounting (conn : Conn) (buf : Buffer) (count : Nat)
    (l : List RecvRes)
    (hcap : count + buf.i + buf.o ≤ buf.size)
    (hwf : (raw_sock_to_buf conn buf count l).wf = true) :
    (raw_sock_to_buf conn buf count l).done =
      (raw_sock_to_buf conn buf count l).acc.sum ∧
    (raw_sock_to_buf conn buf count l).buf.i =
      buf.i + (raw_sock_to_buf conn buf count l).done ∧
    (raw_sock_to_buf conn buf count l).buf.o = buf.o ∧
    (raw_sock_to_buf conn buf count l).buf.i +
      (raw_sock_to_buf conn buf count l).buf.o ≤ buf.size := by
  have key : ∀ (buf' : Buffer) (trySz : Nat), buf'.i = buf.i →
      buf'.o = buf.o → buf'.size = buf.size → trySz ≤ count →
      (rs_loop buf' conn count trySz l).wf = true →
      (rs_loop buf' conn count trySz l).done =
        (rs_loop buf' conn count trySz l).acc.sum ∧
      (rs_loop buf' conn count trySz l).buf.i =
        buf.i + (rs_loop buf' conn count trySz l).done ∧
      (rs_loop buf' conn count trySz l).buf.o = buf.o ∧
      (rs_loop buf' conn count trySz l).buf.i +
        (rs_loop buf' conn count trySz l).buf.o ≤ buf.size := by
    intro buf' trySz hi' ho' hs' hts hwf'
    obtain ⟨ho, hs, hp, hd, hi⟩ := rs_loop_buf l buf' conn count trySz
    have hle := rs_loop_le l buf' conn count trySz hts hwf'
    exact ⟨hd, by omega, by omega, by omega⟩
  unfold raw_sock_to_buf at hwf ⊢
  by_cases h1 : (conn.ev_pollhup && !conn.ev_pollin) = true
  · rw [if_pos h1]
    refine ⟨by simp, by simp, rfl, by simp; omega⟩
  · by_cases h2 : buffer_empty buf = true
    · rw [if_neg h1, if_pos h2] at hwf ⊢
      exact key _ count rfl rfl rfl le_rfl hwf
    · by_cases h3 : (decide (buf.o < buf.p) &&
          decide (buf.p + buf.i < buf.size)) = true
      · rw [if_neg h1, if_neg h2, if_pos h3] at hwf ⊢
        exact key buf _ rfl rfl rfl (by split <;> omega) hwf
      · rw [if_neg h1, if_neg h2, if_neg h3] at hwf ⊢
        exact key buf count rfl rfl rfl le_rfl hwf

/-- Witness for C1 at a concrete input: a wrapped buffer receiving 4 then 1
bytes on a free space of 6. -/
theorem raw_sock_to_buf_accounting_witness :
    (6 + bufW.i + bufW.o ≤ bufW.size) ∧
    ((raw_sock_to_buf conn0 bufW 6 [.bytes 4, .bytes 1]).wf = true) ∧
    (raw_sock_to_buf conn0 bufW 6 [.bytes 4, .bytes 1]).done =
      (raw_sock_to_buf conn0 bufW 6 [.bytes 4, .bytes 1]).acc.sum ∧
    (raw_sock_to_buf conn0 bufW 6 [.bytes 4, .bytes 1]).buf.i =
      bufW.i + (raw_sock_to_buf conn0 bufW 6 [.bytes 4, .bytes 1]).done ∧
    (raw_sock_to_buf conn0 bufW 6 [.bytes 4, .bytes 1]).buf.o = bufW.o ∧
    (raw_sock_to_buf conn0 bufW 6 [.bytes 4, .bytes 1]).buf.i +
      (raw_sock_to_buf conn0 bufW 6 [.bytes 4, .bytes 1]).buf.o ≤ bufW.size :=
  ⟨by decide, by decide,
    raw_sock_to_buf_accounting conn0 bufW 6 [.bytes 4, .bytes 1] (by decide)
      (by decide)⟩

/-- C3: in the receive loop of `raw_sock_to_buf`, EAGAIN records
CO_FL_WAIT_DATA and stops the call without touching the error flag or the
buffer; EINTR retries the very same request, accounting nothing beyond the
extra `recv()` call; any other errno records CO_FL_ERROR and stops the
call. -/
theorem rs_loop_errno_handling (buf : Buffer) (conn : Conn)
    (count trySz : Nat) (rest : List RecvRes) (h : 0 < trySz) :
    (rs_loop buf conn count trySz (.eagain :: rest) =
      { done := 0, buf := buf, conn := { conn with wait_data := true },
        rest := rest, reqs := [trySz], acc := [], ne := 1, read0 := false,
        sawZero := false, wf := true }) ∧
    (rs_loop buf conn count trySz (.eintr :: rest) =
      { rs_loop buf conn count trySz rest with
          reqs := trySz :: (rs_loop buf conn count trySz rest).reqs }) ∧
    (rs_loop buf conn count trySz (.err :: rest) =
      { done := 0, buf := buf, conn := { conn with error := true },
        rest := rest, reqs := [trySz], acc := [], ne := 1, read0 := false,
        sawZero := false, wf := true }) := by
  have h0 : ¬trySz = 0 := by omega
  refine ⟨by simp [rs_loop, h0], by simp [rs_loop, h0], by simp [rs_loop, h0]⟩

/-- Witness for C3 at a concrete input. -/
theorem rs_loop_errno_handling_witness :
    0 < 3 ∧
    (rs_loop bufW conn0 6 3 [.eagain] =
      { done := 0, buf := bufW, conn := { conn0 with wait_data := true },
        rest := [], reqs := [3], acc := [], ne := 1, read0 := false,
        sawZero := false, wf := true }) :=
  ⟨by decide, (rs_loop_errno_handling bufW conn0 6 3 [] (by decide)).1⟩

/-- C5 counterexample: on a non-empty buffer whose free region wraps, EINTR
retries make `raw_sock_to_buf` issue three `recv()` syscalls (the requests
are 4, 4 and 4 bytes), refuting "at most two underlying receive calls are
issued". -/
theorem raw_sock_to_buf_three_recv_calls :
    (bufW.o < bufW.p ∧ bufW.p + bufW.i < bufW.size ∧
      buffer_empty bufW = false) ∧
    (raw_sock_to_buf conn0 bufW 6 [.eintr, .eintr, .eintr]).reqs =
      [4, 4, 4] := by
  exact ⟨by decide, by decide⟩

/-- C5 (amended): when the free region of a non-empty buffer wraps past the
end of storage, `raw_sock_to_buf` issues at most two `recv()` calls besides
EINTR-interrupted attempts (which are retried with the same request), and
the request size of the first `recv()` call never exceeds the first
contiguous free segment `size - (p + i)`. -/
theorem raw_sock_to_buf_wrap_calls (conn : Conn) (buf : Buffer)
    (count q : Nat) (l : List RecvRes) (hne : buffer_empty buf = false)
    (hop : buf.o < buf.p) (hpi : buf.p + buf.i < buf.size) :
    (raw_sock_to_buf conn buf count l).ne ≤ 2 ∧
    ((raw_sock_to_buf conn buf count l).reqs.head? = some q →
      q ≤ buf.size - (buf.p + buf.i)) := by
  unfold raw_sock_to_buf
  by_cases h1 : (conn.ev_pollhup && !conn.ev_pollin) = true
  · rw [if_pos h1]
    exact ⟨by simp, by simp⟩
  · have h3 : (decide (buf.o < buf.p) &&
        decide (buf.p + buf.i < buf.size)) = true := by simp [hop, hpi]
    rw [if_neg h1, if_neg (by simp [hne]), if_pos h3]
    refine ⟨(rs_loop_ne l buf conn count _).1, ?_⟩
    intro hh
    rcases rs_loop_reqs_head l buf conn count
        (if count > buf.size - (buf.p + buf.i)
          then buf.size - (buf.p + buf.i) else count) with h | h
    · rw [h] at hh
      have : q = (if count > buf.size - (buf.p + buf.i)
          then buf.size - (buf.p + buf.i) else count) := by
        exact (Option.some.injEq _ _).mp hh.symm
      rw [this]
      split <;> omega
    · rw [h] at hh
      simp at hh

/-- Witness for the amended C5 at a concrete input. -/
theorem raw_sock_to_buf_wrap_calls_witness :
    (buffer_empty bufW = false ∧ bufW.o < bufW.p ∧
      bufW.p + bufW.i < bufW.size) ∧
    (raw_sock_to_buf conn0 bufW 6 [.bytes 4, .bytes 1]).reqs.head? =
      some 4 ∧
    ((raw_sock_to_buf conn0 bufW 6 [.bytes 4, .bytes 1]).ne ≤ 2 ∧
      ((raw_sock_to_buf conn0 bufW 6 [.bytes 4, .bytes 1]).reqs.head? =
          some 4 → 4 ≤ bufW.size - (bufW.p + bufW.i))) :=
  ⟨by decide, by decide,
    raw_sock_to_buf_wrap_calls conn0 bufW 6 4 [.bytes 4, .bytes 1]
      (by decide) (by decide) (by decide)⟩

/-- C10: a `recv()` accepting fewer bytes than requested while FD_POLL_HUP
is recorded for the socket is treated as end of stream — the `read0` path
runs, `conn_sock_read0` recording the kernel read shutdown — yet the bytes
accepted in that same call, and in the calls before it, are still counted in
the returned total; concretely, on the wrapped buffer `bufW` with a hang-up
recorded, receiving 4 then 1 of 2 requested bytes returns 5 with the
shutdown recorded. -/
theorem rs_loop_hup_short_read (buf : Buffer) (conn : Conn)
    (count trySz n : Nat) (rest : List RecvRes)
    (hup : conn.ev_pollhup = true) (hn : 0 < n) (hlt : n < trySz) :
    (rs_loop buf conn count trySz (.bytes n :: rest) =
      { done := n, buf := { buf with i := buf.i + n },
        conn := conn_sock_read0 conn, rest := rest, reqs := [trySz],
        acc := [n], ne := 1, read0 := true, sawZero := false,
        wf := true }) ∧
    (raw_sock_to_buf connH bufW 6 [.bytes 4, .bytes 1]).done = 5 ∧
    (raw_sock_to_buf connH bufW 6 [.bytes 4, .bytes 1]).read0 = true ∧
    (raw_sock_to_buf connH bufW 6 [.bytes 4, .bytes 1]).conn.sock_rd_sh =
      true ∧
    (raw_sock_to_buf connH bufW 6 [.bytes 4, .bytes 1]).buf.i = 5 := by
  have h0 : ¬trySz = 0 := by omega
  exact ⟨by simp [rs_loop, h0, hn, hlt, hup], by decide, by decide,
    by decide, by decide⟩

/-- Witness for C10 at a concrete input. -/
theorem rs_loop_hup_short_read_witness :
    connH.ev_pollhup = true ∧ 0 < 1 ∧ 1 < 3 ∧
    (raw_sock_to_buf connH bufW 6 [.bytes 4, .bytes 1]).done = 5 :=
  ⟨by decide, by decide, by decide,
    (rs_loop_hup_short_read bufW connH 6 3 1 [] (by decide) (by decide)
      (by decide)).2.1⟩

/-! ## Facts about the read driving loop -/

/-- `raw_sock_to_buf` never touches the data-shutdown, handshake and
wait-room connection fields; and when it consumed a zero-byte receive it has
recorded the kernel read shutdown and has not touched the error flag. -/
theorem raw_sock_to_buf_conn (conn : Conn) (buf : Buffer) (count : Nat)
    (l : List RecvRes) :
    (raw_sock_to_buf conn buf count l).conn.data_rd_sh = conn.data_rd_sh ∧
    (raw_sock_to_buf conn buf count l).conn.handshake = conn.handshake ∧
    (raw_sock_to_buf conn buf count l).conn.wait_room = conn.wait_room ∧
    ((raw_sock_to_buf conn buf count l).sawZero = true →
      (raw_sock_to_buf conn buf count l).conn.sock_rd_sh = true ∧
      (raw_sock_to_buf conn buf count l).conn.error = conn.error) := by
  unfold raw_sock_to_buf
  by_cases h1 : (conn.ev_pollhup && !conn.ev_pollin) = true
  · rw [if_pos h1]
    simp [conn_sock_read0]
  · rw [if_neg h1]
    split
    · obtain ⟨a, c, d, _, _, _, g⟩ :=
        rs_loop_conn l { buf with p := 0 } conn count count
      exact ⟨a, c, d, g⟩
    · split
      · obtain ⟨a, c, d, _, _, _, g⟩ := rs_loop_conn l buf conn count _
        exact ⟨a, c, d, g⟩
      · obtain ⟨a, c, d, _, _, _, g⟩ := rs_loop_conn l buf conn count count
        exact ⟨a, c, d, g⟩

/-- Clearing the transitional L4 flag touches no other connection field. -/
theorem clear_l4_fields (c : Conn) :
    (if c.wait_l4_conn then { c with wait_l4_conn := false } else c).error =
      c.error ∧
    (if c.wait_l4_conn then
      { c with wait_l4_conn := false } else c).sock_rd_sh = c.sock_rd_sh ∧
    (if c.wait_l4_conn then
      { c with wait_l4_conn := false } else c).data_rd_sh = c.data_rd_sh := by
  split <;> simp

/-- The post-receive part of a read-loop iteration satisfies the
end-of-stream invariant, given what the receive guarantees. -/
theorem srr_mid_zero_shut (re : Nat) (fl : Bool) (b : Channel) (si : Bool)
    (cr maxb : Nat) (r : RsOut) (hdata : r.conn.data_rd_sh = false)
    (hz : r.sawZero = true → r.conn.sock_rd_sh = true ∧
      r.conn.error = false) :
    ZeroShutInv (srr_mid re fl b si cr maxb r) := by
  obtain ⟨ce, cs, cd⟩ := clear_l4_fields r.conn
  simp only [srr_mid]
  split
  · -- r.done = 0 : stop with the receive result
    simp only [ZeroShutInv]
    intro hsz
    obtain ⟨g1, g2⟩ := hz hsz
    exact ⟨g1, hdata, g2⟩
  · split
    · -- buffer became full
      simp only [ZeroShutInv]
      intro hsz
      obtain ⟨g1, g2⟩ := hz hsz
      exact ⟨by rw [cs]; exact g1, by rw [cd]; exact hdata,
        by rw [ce]; exact g2⟩
    · split
      · -- BF_READ_DONTWAIT or budget exhausted
        simp only [ZeroShutInv]
        intro hsz
        obtain ⟨g1, g2⟩ := hz hsz
        exact ⟨by rw [cs]; exact g1, by rw [cd]; exact hdata,
          by rw [ce]; exact g2⟩
      · split
        · -- short read
          split
          · -- still a streamer: stop
            simp only [ZeroShutInv]
            intro hsz
            obtain ⟨g1, g2⟩ := hz hsz
            exact ⟨by rw [cs]; exact g1, by rw [cd]; exact hdata,
              by rw [ce]; exact g2⟩
          · split
            · -- read enough: stop
              simp only [ZeroShutInv]
              intro hsz
              obtain ⟨g1, g2⟩ := hz hsz
              exact ⟨by rw [cs]; exact g1, by rw [cd]; exact hdata,
                by rw [ce]; exact g2⟩
            · -- continue
              simp only [ZeroShutInv]
              refine ⟨by rw [cd]; exact hdata, ?_⟩
              intro hsz
              obtain ⟨g1, g2⟩ := hz hsz
              exact ⟨by rw [cs]; exact g1, by rw [ce]; exact g2⟩
        · -- full read: continue
          simp only [ZeroShutInv]
          refine ⟨by rw [cd]; exact hdata, ?_⟩
          intro hsz
          obtain ⟨g1, g2⟩ := hz hsz
          exact ⟨by rw [cs]; exact g1, by rw [ce]; exact g2⟩

/-- One read-loop iteration satisfies the end-of-stream invariant. -/
theorem srr_body_zero_shut (re : Nat) (fl : Bool) (conn : Conn)
    (b : Channel) (si : Bool) (cr : Nat) (l : List RecvRes)
    (hd : conn.data_rd_sh = false) :
    ZeroShutInv (srr_body re fl conn b si cr l) := by
  simp only [srr_body]
  split
  · simp [ZeroShutInv]
  · next hg =>
    simp only [Bool.or_eq_true, not_or, Bool.not_eq_true,
      Bool.or_eq_false_iff] at hg
    obtain ⟨⟨⟨⟨⟨hge, hgs⟩, hgd⟩, hgw⟩, hgr⟩, hgh⟩ := hg
    split
    · simp [ZeroShutInv]
    · obtain ⟨pd, ph, pw, pz⟩ :=
        raw_sock_to_buf_conn conn b.buf (bi_avail b.buf) l
      refine srr_mid_zero_shut re fl b si cr (bi_avail b.buf) _
        (by rw [pd]; exact hd) ?_
      intro hsz
      obtain ⟨g1, g2⟩ := pz hsz
      exact ⟨g1, by rw [g2]; exact hge⟩

/-- With a stopping flag already recorded the read loop exits immediately,
performing no receive. -/
theorem srr_loop_stuck (re rp : Nat) (conn : Conn) (b : Channel) (si : Bool)
    (cr : Nat) (l : List RecvRes)
    (h : (conn.error || conn.sock_rd_sh || conn.data_rd_sh ||
      conn.wait_data || conn.wait_room || conn.handshake) = true) :
    srr_loop re rp conn b si cr l =
      { conn := conn, b := b, si_wait_room := si, cur_read := cr, rest := l,
        recvCalls := 0, sawZero := false, wf := true } := by
  match rp with
  | 0 => simp [srr_loop, srr_last, srr_body, h]
  | 1 => simp [srr_loop, srr_last, srr_body, h]
  | rp' + 2 => simp [srr_loop, srr_body, h]

/-- Through the whole read loop: if a zero-byte receive was consumed, the
loop ended with the kernel read shutdown recorded and the data-shutdown and
error flags clear. -/
theorem srr_loop_saw_zero (re : Nat) : ∀ (rp : Nat) (conn : Conn)
    (b : Channel) (si : Bool) (cr : Nat) (l : List RecvRes),
    conn.data_rd_sh = false →
    (srr_loop re rp conn b si cr l).sawZero = true →
    (srr_loop re rp conn b si cr l).conn.sock_rd_sh = true ∧
    (srr_loop re rp conn b si cr l).conn.data_rd_sh = false ∧
    (srr_loop re rp conn b si cr l).conn.error = false := by
  have last : ∀ (conn : Conn) (b : Channel) (si : Bool) (cr : Nat)
      (l : List RecvRes), conn.data_rd_sh = false →
      (srr_last re conn b si cr l).sawZero = true →
      (srr_last re conn b si cr l).conn.sock_rd_sh = true ∧
      (srr_last re conn b si cr l).conn.data_rd_sh = false ∧
      (srr_last re conn b si cr l).conn.error = false := by
    intro conn b si cr l hd
    have inv := srr_body_zero_shut re true conn b si cr l hd
    rcases hb : srr_body re true conn b si cr l with o |
      ⟨c', b', cur', rest', calls, sz, wfb⟩ <;>
      rw [hb] at inv <;> simp only [ZeroShutInv] at inv <;>
      simp only [srr_last, hb]
    · exact inv
    · intro hsz
      exact ⟨(inv.2 hsz).1, inv.1, (inv.2 hsz).2⟩
  intro rp
  induction rp with
  | zero =>
    intro conn b si cr l hd
    simp only [srr_loop]
    exact last conn b si cr l hd
  | succ n ih =>
    rcases n with _ | n'
    · intro conn b si cr l hd
      simp only [srr_loop]
      exact last conn b si cr l hd
    · intro conn b si cr l hd
      have inv := srr_body_zero_shut re false conn b si cr l hd
      rcases hb : srr_body re false conn b si cr l with o |
        ⟨c', b', cur', rest', calls, sz, wfb⟩ <;>
        rw [hb] at inv <;> simp only [ZeroShutInv] at inv <;>
        simp only [srr_loop, hb]
      · exact inv
      · intro hsz
        rcases Bool.or_eq_true_iff.mp hsz with hsz' | hsz'
        · obtain ⟨hsock, herr⟩ := inv.2 hsz'
          rw [srr_loop_stuck re (n' + 1) c' b' si cur' rest'
            (by simp [hsock])]
          exact ⟨hsock, inv.1, herr⟩
        · obtain ⟨g1, g2, g3⟩ := ih c' b' si cur' rest' inv.1 hsz'
          exact ⟨g1, g2, g3⟩

/-- Field computation of the `out_shutdown_r` tail. -/
theorem out_shutdown_r_fields (conn : Conn) (b : Channel) (si : Bool)
    (calls : Nat) (sz wf : Bool) (rearm : Rearm) :
    (out_shutdown_r conn b si calls sz wf rearm).b.read_null = true ∧
    (out_shutdown_r conn b si calls sz wf rearm).b.shutr = true ∧
    (out_shutdown_r conn b si calls sz wf rearm).shutdownRuns = 1 ∧
    (out_shutdown_r conn b si calls sz wf rearm).conn =
      conn_data_read0 conn ∧
    (out_shutdown_r conn b si calls sz wf rearm).sawZero = sz ∧
    (out_shutdown_r conn b si calls sz wf rearm).recvCalls = calls := by
  simp only [out_shutdown_r, buffer_shutw_now, stream_sock_read0]
  split <;> simp [conn_data_read0]

/-- C2: whenever a receive inside `raw_sock_to_buf` returns zero bytes
during a `sock_raw_read` invocation on a live connection (no error, no read
shutdown recorded yet, channel not already shut), the invocation ends by
setting BF_READ_NULL and running the read-shutdown tail exactly once —
regardless of how many bytes were buffered in the same pass — and any later
invocation of the read entry point performs no receive call and does not
run the shutdown tail again. -/
theorem sock_raw_read_eos_once (rp re mr rp₂ re₂ mr₂ : Nat) (conn : Conn)
    (b : Channel) (si si₂ : Bool) (l l₂ : List RecvRes)
    (he : conn.error = false) (hs : conn.sock_rd_sh = false)
    (hd : conn.data_rd_sh = false) (hbr : b.shutr = false)
    (hz : (sock_raw_read rp re mr conn b si l).sawZero = true) :
    (sock_raw_read rp re mr conn b si l).b.read_null = true ∧
    (sock_raw_read rp re mr conn b si l).b.shutr = true ∧
    (sock_raw_read rp re mr conn b si l).shutdownRuns = 1 ∧
    (sock_raw_read rp₂ re₂ mr₂ (sock_raw_read rp re mr conn b si l).conn
      (sock_raw_read rp re mr conn b si l).b si₂ l₂).recvCalls = 0 ∧
    (sock_raw_read rp₂ re₂ mr₂ (sock_raw_read rp re mr conn b si l).conn
      (sock_raw_read rp re mr conn b si l).b si₂ l₂).shutdownRuns = 0 := by
  have hp : conn_data_read0_pending conn = false := by
    simp [conn_data_read0_pending, hs]
  unfold sock_raw_read at hz ⊢
  rw [if_neg (by simp [he]), if_neg (by simp [hp]), if_neg (by simp [hbr])]
    at hz ⊢
  simp only [] at hz ⊢
  have hOz : (srr_loop re rp
      { conn with wait_data := false, wait_room := false } b si 0 l).sawZero
      = true := by
    split at hz
    · simpa using hz
    · split at hz
      · rw [(out_shutdown_r_fields _ _ _ _ _ _ _).2.2.2.2.1] at hz
        exact hz
      · simpa using hz
  obtain ⟨g1, g2, g3⟩ := srr_loop_saw_zero re rp
    { conn with wait_data := false, wait_room := false } b si 0 l
    (by simp [hd]) hOz
  have hpend : conn_data_read0_pending (srr_loop re rp
      { conn with wait_data := false, wait_room := false } b si 0 l).conn
      = true := by
    simp [conn_data_read0_pending, g1, g2]
  rw [if_neg (by simp [g3]), if_pos (by simp [hpend])]
  obtain ⟨f1, f2, f3, f4, f5, f6⟩ := out_shutdown_r_fields
    (srr_loop re rp { conn with wait_data := false, wait_room := false }
      b si 0 l).conn
    (srr_loop re rp { conn with wait_data := false, wait_room := false }
      b si 0 l).b
    (srr_loop re rp { conn with wait_data := false, wait_room := false }
      b si 0 l).si_wait_room
    (srr_loop re rp { conn with wait_data := false, wait_room := false }
      b si 0 l).recvCalls
    (srr_loop re rp { conn with wait_data := false, wait_room := false }
      b si 0 l).sawZero
    (srr_loop re rp { conn with wait_data := false, wait_room := false }
      b si 0 l).wf
    (if (srr_loop re rp { conn with wait_data := false, wait_room := false }
        b si 0 l).conn.wait_data = true then
      if (srr_loop re rp { conn with wait_data := false, wait_room := false }
          b si 0 l).cur_read < mr then Rearm.pollRecv else Rearm.wantRecv
    else Rearm.idle)
  refine ⟨f1, f2, f3, ?_, ?_⟩ <;>
  · rw [f4]
    rw [if_neg (by simp [conn_data_read0, g3]),
      if_neg (by simp [conn_data_read0_pending, conn_data_read0]),
      if_pos (by simp [f2])]

/-- Witness for C2 at a concrete input: a zero-byte receive on the pristine
channel, then a re-invocation. -/
theorem sock_raw_read_eos_once_witness :
    conn0.error = false ∧ conn0.sock_rd_sh = false ∧
    conn0.data_rd_sh = false ∧ chanStart.shutr = false ∧
    (sock_raw_read 60 1448 3 conn0 chanStart false [.bytes 0]).sawZero =
      true ∧
    ((sock_raw_read 60 1448 3 conn0 chanStart false
        [.bytes 0]).b.read_null = true ∧
      (sock_raw_read 60 1448 3 conn0 chanStart false [.bytes 0]).b.shutr =
        true ∧
      (sock_raw_read 60 1448 3 conn0 chanStart false
        [.bytes 0]).shutdownRuns = 1 ∧
      (sock_raw_read 60 1448 3
        (sock_raw_read 60 1448 3 conn0 chanStart false [.bytes 0]).conn
        (sock_raw_read 60 1448 3 conn0 chanStart false [.bytes 0]).b false
        [.bytes 7]).recvCalls = 0 ∧
      (sock_raw_read 60 1448 3
        (sock_raw_read 60 1448 3 conn0 chanStart false [.bytes 0]).conn
        (sock_raw_read 60 1448 3 conn0 chanStart false [.bytes 0]).b false
        [.bytes 7]).shutdownRuns = 0) :=
  ⟨by decide, by decide, by decide, by decide, by decide,
    sock_raw_read_eos_once 60 1448 3 60 1448 3 conn0 chanStart false false
      [.bytes 0] [.bytes 7] (by decide) (by decide) (by decide) (by decide)
      (by decide)⟩

/-- C4: the streamer classification applied when a read pass has just filled
the buffer: a one-shot full fill (not already a fast streamer) bumps
`xfer_large` and clears `xfer_small`, promoting to streamer and fast
streamer exactly from the third; a streamer pass reading at most half the
buffer bumps `xfer_small` and clears `xfer_large`, clearing only the fast
flag from the second; any other full-buffer pass resets both counters and
changes no flag.  Chained through `sock_raw_read` at capacity 4096: three
one-shot full fills set both flags via `xfer_large` reaching 3, two
subsequent half-buffer fills clear only `streamer_fast` via `xfer_small`
reaching 2, and a neither-case full pass resets both counters while
`streamer` stays. -/
theorem streamer_classification :
    (∀ (b : Channel) (cur : Nat), b.streamer_fast = false →
      cur = buffer_len b.buf →
      (streamer_update b cur).xfer_large = b.xfer_large + 1 ∧
      (streamer_update b cur).xfer_small = 0 ∧
      ((streamer_update b cur).streamer = true ↔
        (b.streamer = true ∨ 3 ≤ b.xfer_large + 1)) ∧
      ((streamer_update b cur).streamer_fast = true ↔
        3 ≤ b.xfer_large + 1)) ∧
    (∀ (b : Channel) (cur : Nat),
      (b.streamer = true ∨ b.streamer_fast = true) →
      cur ≤ b.buf.size / 2 →
      ¬(b.streamer_fast = false ∧ cur = buffer_len b.buf) →
      (streamer_update b cur).xfer_small = b.xfer_small + 1 ∧
      (streamer_update b cur).xfer_large = 0 ∧
      (streamer_update b cur).streamer = b.streamer ∧
      ((streamer_update b cur).streamer_fast = true ↔
        (b.streamer_fast = true ∧ b.xfer_small + 1 < 2))) ∧
    (∀ (b : Channel) (cur : Nat),
      ¬(b.streamer_fast = false ∧ cur = buffer_len b.buf) →
      ¬((b.streamer = true ∨ b.streamer_fast = true) ∧
        cur ≤ b.buf.size / 2) →
      streamer_update b cur = { b with xfer_small := 0, xfer_large := 0 }) ∧
    (c4_p1.b.xfer_large = 1 ∧ c4_p1.b.streamer = false ∧
      c4_p1.b.full = true ∧ c4_p1.si_wait_room = true ∧
      c4_p2.b.xfer_large = 2 ∧ c4_p2.b.streamer = false ∧
      c4_p3.b.xfer_large = 3 ∧ c4_p3.b.streamer = true ∧
      c4_p3.b.streamer_fast = true ∧
      c4_p4.b.xfer_small = 1 ∧ c4_p4.b.streamer_fast = true ∧
      c4_p5.b.xfer_small = 2 ∧ c4_p5.b.streamer_fast = false ∧
      c4_p5.b.streamer = true ∧
      c4_p6.b.xfer_small = 0 ∧ c4_p6.b.xfer_large = 0 ∧
      c4_p6.b.streamer = true ∧ c4_p6.b.streamer_fast = false) := by
  refine ⟨?_, ?_, ?_, by decide⟩
  · intro b cur h1 h2
    by_cases h3 : 3 ≤ b.xfer_large + 1 <;>
      simp [streamer_update, h1, h2, h3]
  · intro b cur h1 h2 h3
    have hc1 : (!b.streamer_fast && (cur == buffer_len b.buf)) = false := by
      cases hf : b.streamer_fast with
      | true => simp [hf]
      | false =>
        have hcc : ¬cur = buffer_len b.buf := fun hcc => h3 ⟨hf, hcc⟩
        simp [hf, hcc]
    have hc2 : ((b.streamer || b.streamer_fast) &&
        decide (cur ≤ b.buf.size / 2)) = true := by
      rcases h1 with h1 | h1 <;> simp [h1, h2]
    by_cases h4 : 2 ≤ b.xfer_small + 1 <;>
      simp [streamer_update, hc1, hc2, h4] <;> omega
  · intro b cur h1 h2
    have hc1 : (!b.streamer_fast && (cur == buffer_len b.buf)) = false := by
      cases hf : b.streamer_fast with
      | true => simp [hf]
      | false =>
        have hcc : ¬cur = buffer_len b.buf := fun hcc => h1 ⟨hf, hcc⟩
        simp [hf, hcc]
    have hc2 : ((b.streamer || b.streamer_fast) &&
        decide (cur ≤ b.buf.size / 2)) = false := by
      cases hs : b.streamer with
      | true =>
        have hle : ¬cur ≤ b.buf.size / 2 := fun hcc => h2 ⟨Or.inl hs, hcc⟩
        simp [hs, hle]
      | false =>
        cases hf : b.streamer_fast with
        | true =>
          have hle : ¬cur ≤ b.buf.size / 2 :=
            fun hcc => h2 ⟨Or.inr hf, hcc⟩
          simp [hs, hf, hle]
        | false => simp [hs, hf]
    simp [streamer_update, hc1, hc2]

/-- Witness for the universal parts of C4 at a concrete input. -/
theorem streamer_classification_witness :
    chanFull2.streamer_fast = false ∧
    (4096 : Nat) = buffer_len chanFull2.buf ∧
    ((streamer_update chanFull2 4096).xfer_large =
        chanFull2.xfer_large + 1 ∧
      (streamer_update chanFull2 4096).xfer_small = 0 ∧
      ((streamer_update chanFull2 4096).streamer = true ↔
        (chanFull2.streamer = true ∨ 3 ≤ chanFull2.xfer_large + 1)) ∧
      ((streamer_update chanFull2 4096).streamer_fast = true ↔
        3 ≤ chanFull2.xfer_large + 1)) :=
  ⟨by decide, by decide,
    streamer_classification.1 chanFull2 4096 (by decide) (by decide)⟩

/-- C6: with finite nonzero forwarding and the write side not shutting down,
a receive of `ret` bytes promotes `min ret to_forward` bytes from input to
pending output at once, decrementing `to_forward` by the same amount; and
through `sock_raw_read`, with `to_forward = 1000` and a single 1500-byte
receive, 1000 bytes move to output immediately, 500 remain as unread input
and `to_forward` becomes 0. -/
theorem forward_on_read (b : Channel) (ret : Nat)
    (h0 : b.to_forward ≠ 0) (hinf : b.to_forward ≠ BUF_INFINITE_FORWARD)
    (hw : b.shutw = false) (hwn : b.shutw_now = false) :
    ((forward_update b ret).buf.o = b.buf.o + min ret b.to_forward ∧
     (forward_update b ret).buf.i = b.buf.i - min ret b.to_forward ∧
     (forward_update b ret).to_forward =
       b.to_forward - min ret b.to_forward) ∧
    ((sock_raw_read 60 1448 3 conn0 { chanStart with to_forward := 1000 }
        false [.bytes 1500]).b.buf.o = 1000 ∧
     (sock_raw_read 60 1448 3 conn0 { chanStart with to_forward := 1000 }
        false [.bytes 1500]).b.buf.i = 500 ∧
     (sock_raw_read 60 1448 3 conn0 { chanStart with to_forward := 1000 }
        false [.bytes 1500]).b.to_forward = 0 ∧
     (sock_raw_read 60 1448 3 conn0 { chanStart with to_forward := 1000 }
        false [.bytes 1500]).recvCalls = 1) := by
  refine ⟨?_, by decide⟩
  have hcond : (b.to_forward != 0 && !(b.shutw || b.shutw_now)) = true := by
    simp [h0, hw, hwn]
  have hcond2 : (b.to_forward != BUF_INFINITE_FORWARD) = true := by
    simp [hinf]
  simp only [forward_update, hcond, hcond2, if_true]
  refine ⟨?_, ?_, ?_⟩ <;> simp [b_adv, Nat.min_def] <;> split <;>
    split <;> omega

/-- Witness for C6 at a concrete input. -/
theorem forward_on_read_witness :
    ({ chanStart with to_forward := 1000 } : Channel).to_forward ≠ 0 ∧
    ({ chanStart with to_forward := 1000 } : Channel).to_forward ≠
      BUF_INFINITE_FORWARD ∧
    ({ chanStart with to_forward := 1000 } : Channel).shutw = false ∧
    ({ chanStart with to_forward := 1000 } : Channel).shutw_now = false ∧
    (((forward_update { chanStart with to_forward := 1000 } 1500).buf.o =
        ({ chanStart with to_forward := 1000 } : Channel).buf.o +
          min 1500 ({ chanStart with
            to_forward := 1000 } : Channel).to_forward ∧
      (forward_update { chanStart with to_forward := 1000 } 1500).buf.i =
        ({ chanStart with to_forward := 1000 } : Channel).buf.i -
          min 1500 ({ chanStart with
            to_forward := 1000 } : Channel).to_forward ∧
      (forward_update { chanStart with
          to_forward := 1000 } 1500).to_forward =
        ({ chanStart with to_forward := 1000 } : Channel).to_forward -
          min 1500 ({ chanStart with
            to_forward := 1000 } : Channel).to_forward) ∧
     ((sock_raw_read 60 1448 3 conn0 { chanStart with to_forward := 1000 }
        false [.bytes 1500]).b.buf.o = 1000 ∧
      (sock_raw_read 60 1448 3 conn0 { chanStart with to_forward := 1000 }
        false [.bytes 1500]).b.buf.i = 500 ∧
      (sock_raw_read 60 1448 3 conn0 { chanStart with to_forward := 1000 }
        false [.bytes 1500]).b.to_forward = 0 ∧
      (sock_raw_read 60 1448 3 conn0 { chanStart with to_forward := 1000 }
        false [.bytes 1500]).recvCalls = 1)) :=
  ⟨by decide, by decide, by decide, by decide,
    forward_on_read { chanStart with to_forward := 1000 } 1500 (by decide)
      (by decide) (by decide) (by decide)⟩

/-- C7: once the connection's error flag is set, an invocation of the read
entry point performs no receive, runs no shutdown, keeps the flag and stops
I/O both ways, and an invocation of the write entry point performs no send
and keeps the flag; since the flag is preserved, no later invocation of
either path issues any receive or send call. -/
theorem error_terminality (rp re mr wp : Nat) (conn : Conn) (b bw : Channel)
    (si : Bool) (l : List RecvRes) (lw : List SendRes)
    (herr : conn.error = true) :
    (sock_raw_read rp re mr conn b si l).recvCalls = 0 ∧
    (sock_raw_read rp re mr conn b si l).conn.error = true ∧
    (sock_raw_read rp re mr conn b si l).stoppedBoth = true ∧
    (sock_raw_read rp re mr conn b si l).shutdownRuns = 0 ∧
    (si_conn_send_cb wp conn bw lw).sends = [] ∧
    (si_conn_send_cb wp conn bw lw).conn.error = true ∧
    (si_conn_send_cb wp conn bw lw).b = bw := by
  simp [sock_raw_read, si_conn_send_cb, herr]

/-- Witness for C7 at a concrete input. -/
theorem error_terminality_witness :
    ({ conn0 with error := true } : Conn).error = true ∧
    ((sock_raw_read 60 1448 3 { conn0 with error := true } chanStart false
        [.bytes 5]).recvCalls = 0 ∧
     (sock_raw_read 60 1448 3 { conn0 with error := true } chanStart false
        [.bytes 5]).conn.error = true ∧
     (sock_raw_read 60 1448 3 { conn0 with error := true } chanStart false
        [.bytes 5]).stoppedBoth = true ∧
     (sock_raw_read 60 1448 3 { conn0 with error := true } chanStart false
        [.bytes 5]).shutdownRuns = 0 ∧
     (si_conn_send_cb 25 { conn0 with error := true } chanW2000
        [.bytes 5]).sends = [] ∧
     (si_conn_send_cb 25 { conn0 with error := true } chanW2000
        [.bytes 5]).conn.error = true ∧
     (si_conn_send_cb 25 { conn0 with error := true } chanW2000
        [.bytes 5]).b = chanW2000) :=
  ⟨by decide,
    error_terminality 60 1448 3 25 { conn0 with error := true } chanStart
      chanW2000 false [.bytes 5] [.bytes 5] (by decide)⟩

/-- C8 counterexample: at the claimed scenario — 2000 pending output bytes
of which the kernel accepts 800 — the loop leaves 1200 pending and stops
without error, but it does NOT request write interest from the poller:
`conn_data_poll_send` is invoked only on a would-block send
(raw_sock.c, lines 613-617), not after a partial one (lines 606-608). -/
theorem write_partial_no_poll_request :
    (sock_raw_write_loop 25 conn0 chanW2000 [.bytes 800]).b.buf.o = 1200 ∧
    (sock_raw_write_loop 25 conn0 chanW2000 [.bytes 800]).fatal = false ∧
    (sock_raw_write_loop 25 conn0 chanW2000 [.bytes 800]).sends.length =
      1 ∧
    (sock_raw_write_loop 25 conn0 chanW2000 [.bytes 800]).pollSend =
      false := by
  decide

/-- C8 (amended): a partial send decrements pending_out by exactly the bytes
accepted and the loop stops without error after that one send; the loop
itself requests write interest from the poller only in the would-block case
(a send accepting nothing), re-arming after a partial send being left to
the caller's update step. -/
theorem write_loop_partial_send (wp : Nat) (conn : Conn) (b : Channel)
    (k : Nat) (hnw : b.buf.o ≤ b.buf.p) (hk : 0 < k) (hlt : k < b.buf.o) :
    (sock_raw_write_loop wp conn b [.bytes k]).b.buf.o = b.buf.o - k ∧
    (sock_raw_write_loop wp conn b [.bytes k]).fatal = false ∧
    (sock_raw_write_loop wp conn b [.bytes k]).sends.length = 1 ∧
    (sock_raw_write_loop wp conn b [.bytes k]).pollSend = false ∧
    (sock_raw_write_loop wp conn b [.eagain]).pollSend = true ∧
    (sock_raw_write_loop wp conn b [.eagain]).fatal = false ∧
    (sock_raw_write_loop wp conn b [.eagain]).b = b := by
  have ho : ¬b.buf.o = 0 := by omega
  have hmax : ¬b.buf.o > b.buf.p := by omega
  have hlen : ¬buffer_len
      { size := b.buf.size, p := b.buf.p, i := b.buf.i,
        o := b.buf.o - k } = 0 := by
    simp [buffer_len]; omega
  have hok : ¬b.buf.o - k = 0 := by omega
  rcases wp with _ | _ | wp' <;>
  · simp only [sock_raw_write_loop, sw_loop, sw_last, sw_body]
    simp only [if_neg ho, if_neg hmax, if_pos hk, if_neg hlen]
    by_cases hbf : (!bi_full
        { size := b.buf.size, p := b.buf.p, i := b.buf.i,
          o := b.buf.o - k }) = true
    · simp only [if_pos hbf, if_neg hok, if_pos hlt]
      simp
    · simp only [if_neg hbf, if_neg hok, if_pos hlt]
      simp

/-- Witness for the amended C8 at the claimed scenario. -/
theorem write_loop_partial_send_witness :
    chanW2000.buf.o ≤ chanW2000.buf.p ∧ 0 < 800 ∧
    800 < chanW2000.buf.o ∧
    ((sock_raw_write_loop 25 conn0 chanW2000 [.bytes 800]).b.buf.o =
      chanW2000.buf.o - 800 ∧
     (sock_raw_write_loop 25 conn0 chanW2000 [.bytes 800]).fatal = false ∧
     (sock_raw_write_loop 25 conn0 chanW2000
        [.bytes 800]).sends.length = 1 ∧
     (sock_raw_write_loop 25 conn0 chanW2000 [.bytes 800]).pollSend =
       false ∧
     (sock_raw_write_loop 25 conn0 chanW2000 [.eagain]).pollSend = true ∧
     (sock_raw_write_loop 25 conn0 chanW2000 [.eagain]).fatal = false ∧
     (sock_raw_write_loop 25 conn0 chanW2000 [.eagain]).b = chanW2000) :=
  ⟨by decide, by decide, by decide,
    write_loop_partial_send 25 conn0 chanW2000 800 (by decide) (by decide)
      (by decide)⟩

/-- C9: calling the send path with no pending output performs no send
syscall, marks BF_OUT_EMPTY, succeeds, and is idempotent: a repeated call
leaves the channel state exactly unchanged, again with no syscall. -/
theorem write_loop_idempotent_empty (wp : Nat) (conn conn₂ : Conn)
    (b : Channel) (l l₂ : List SendRes) (h : b.buf.o = 0) :
    (sock_raw_write_loop wp conn b l).b = { b with out_empty := true } ∧
    (sock_raw_write_loop wp conn b l).fatal = false ∧
    (sock_raw_write_loop wp conn b l).sends = [] ∧
    (sock_raw_write_loop wp conn b l).pollSend = false ∧
    (sock_raw_write_loop wp conn₂ (sock_raw_write_loop wp conn b l).b
      l₂).b = (sock_raw_write_loop wp conn b l).b ∧
    (sock_raw_write_loop wp conn₂ (sock_raw_write_loop wp conn b l).b
      l₂).sends = [] ∧
    (sock_raw_write_loop wp conn₂ (sock_raw_write_loop wp conn b l).b
      l₂).fatal = false := by
  simp [sock_raw_write_loop, h]

/-- Witness for C9 at a concrete input. -/
theorem write_loop_idempotent_empty_witness :
    chanStart.buf.o = 0 ∧
    ((sock_raw_write_loop 25 conn0 chanStart [.bytes 5]).b =
      { chanStart with out_empty := true } ∧
     (sock_raw_write_loop 25 conn0 chanStart [.bytes 5]).fatal = false ∧
     (sock_raw_write_loop 25 conn0 chanStart [.bytes 5]).sends = [] ∧
     (sock_raw_write_loop 25 conn0 chanStart [.bytes 5]).pollSend = false ∧
     (sock_raw_write_loop 25 conn0
        (sock_raw_write_loop 25 conn0 chanStart [.bytes 5]).b [.eagain]).b =
       (sock_raw_write_loop 25 conn0 chanStart [.bytes 5]).b ∧
     (sock_raw_write_loop 25 conn0
        (sock_raw_write_loop 25 conn0 chanStart [.bytes 5]).b
        [.eagain]).sends = [] ∧
     (sock_raw_write_loop 25 conn0
        (sock_raw_write_loop 25 conn0 chanStart [.bytes 5]).b
        [.eagain]).fatal = false) :=
  ⟨by decide,
    write_loop_idempotent_empty 25 conn0 conn0 chanStart [.bytes 5]
      [.eagain] (by decide)⟩

end RawSock
